import Mathlib

/-!
Shallow embedding of the SLALOM annotation-comparison engine
(source file: slalom_auxiliar.py) and proofs about its behaviour.

Sites are closed intervals with 1-based inclusive integer begin and end
positions; a site list for one annotation of one sequence is kept sorted
ascending by begin position.  Python integers are embedded as Lean Int,
the float values of group-level measures as Real, and the float NaN
sentinel as the none case of an Option.
-/

/-- A site: begin and end position, 1-based, inclusive, as stored in
the Python lists `[begin_, end_]` built by `_save_annotation_record`. -/
abbrev Site := ℤ × ℤ

/- ### OverlapResolver: `_resolve_overlaps_within_annotations` -/

/-- Loop body of the `first` policy of
`CSVParser._resolve_overlaps_within_annotations`: the Python loop keeps
`site` when `site[0] > last_end` and then unconditionally sets
`last_end = site[1]`.  The accumulator argument is `last_end`,
initialised to 0 by `resolve_first`. -/
def firstPolicyAux : ℤ → List Site → List Site
  | _, [] => []
  | last_end, site :: rest =>
    if site.1 > last_end then site :: firstPolicyAux site.2 rest
    else firstPolicyAux site.2 rest

/-- The `first` overlap-resolution policy from
`_resolve_overlaps_within_annotations` (`last_end` starts at 0). -/
def resolve_first (sites : List Site) : List Site :=
  firstPolicyAux 0 sites

/-- Loop body of the `merge` policy of
`_resolve_overlaps_within_annotations`: state is `(last_end, new_begin)`,
both initialised to 0; when `site[0] > last_end` the pending run
`[new_begin, last_end]` is emitted (if `new_begin > 0`) and a new run is
opened at `site[0]`; in every iteration `last_end` becomes `site[1]`.
After the loop a pending run is emitted if `new_begin > 0`. -/
def mergePolicyAux : ℤ → ℤ → List Site → List Site
  | last_end, new_begin, [] =>
    if new_begin > 0 then [(new_begin, last_end)] else []
  | last_end, new_begin, site :: rest =>
    if site.1 > last_end then
      (if new_begin > 0 then [(new_begin, last_end)] else [])
        ++ mergePolicyAux site.2 site.1 rest
    else
      mergePolicyAux site.2 new_begin rest

/-- The `merge` overlap-resolution policy from
`_resolve_overlaps_within_annotations`. -/
def resolve_merge (sites : List Site) : List Site :=
  mergePolicyAux 0 0 sites

/-- Whether position `p` is covered by some site of the list. -/
def covers (sites : List Site) (p : ℤ) : Bool :=
  sites.any fun site => decide (site.1 ≤ p) && decide (p ≤ site.2)

/-- The overlap-resolution policy for `first` as the specification words
it: a site is kept exactly when its begin exceeds the end of the
previously kept site.  Stated for comparison with `resolve_first`,
which is the translation of the code. -/
def firstPolicySpecAux : ℤ → List Site → List Site
  | _, [] => []
  | kept_end, site :: rest =>
    if site.1 > kept_end then site :: firstPolicySpecAux site.2 rest
    else firstPolicySpecAux kept_end rest

/-- Entry point of the spec-worded `first` policy. -/
def resolve_first_spec (sites : List Site) : List Site :=
  firstPolicySpecAux 0 sites

/- ### SymbolClassifier, Boolean variant: `BasicBooleanSequenceCalculator` -/

/-- Indices `site[0] - 1, ..., site[1] - 1` visited by the Python loop
`for idx in range(site[0] - 1, site[1])` (empty when the site is
degenerate; positions are 1-based, array indices 0-based). -/
def siteIndices (site : Site) : List ℕ :=
  List.range' (site.1 - 1).toNat (site.2 - (site.1 - 1)).toNat

/-- Marking pass for annotation 1 in `_classify_symbols`: every covered
position is set to 1. -/
def markSite1 (seq : List ℕ) (site : Site) : List ℕ :=
  (siteIndices site).foldl (fun l idx => l.set idx 1) seq

/-- Marking pass for annotation 2 in `_classify_symbols`: a covered
position still 0 becomes 2, a position already 1 becomes 3. -/
def markSite2 (seq : List ℕ) (site : Site) : List ℕ :=
  (siteIndices site).foldl
    (fun l idx =>
      if l.getD idx 0 = 0 then l.set idx 2
      else if l.getD idx 0 = 1 then l.set idx 3
      else l) seq

/-- `BasicBooleanSequenceCalculator._classify_symbols`: the per-position
classification array (0 = absent, 1 = only annotation 1, 2 = only
annotation 2, 3 = both), starting from the zero array of the sequence
length allocated by the constructor. -/
def classify_symbols (len : ℕ) (sites1 sites2 : List Site) : List ℕ :=
  sites2.foldl markSite2 (sites1.foldl markSite1 (List.replicate len 0))

/-- `BasicBooleanSequenceCalculator._in_union`. -/
def in_union (seq : List ℕ) (idx : ℕ) : Bool :=
  1 ≤ seq.getD idx 0

/-- `BasicBooleanSequenceCalculator._in_intersection`. -/
def in_intersection (seq : List ℕ) (idx : ℕ) : Bool :=
  seq.getD idx 0 == 3

/-- `BasicBooleanSequenceCalculator._in_complement1`: positions present
only in annotation 2. -/
def in_complement1 (seq : List ℕ) (idx : ℕ) : Bool :=
  seq.getD idx 0 == 2

/-- `BasicBooleanSequenceCalculator._in_complement2`: positions present
only in annotation 1. -/
def in_complement2 (seq : List ℕ) (idx : ℕ) : Bool :=
  seq.getD idx 0 == 1

/-- The position scan of `BasicSequenceCalculator.write_to_files` for one
output predicate: the loop opens a run when the predicate becomes true at
`idx` (recording `begin_idx = idx`), emits `(begin_idx + 1, idx)` when it
becomes false, and emits `(begin_idx + 1, length)` when the sequence ends
inside a run.  The emitted pairs are the 1-based inclusive intervals
written by `_write_site`. -/
def write_runs (p : ℕ → Bool) (len : ℕ) : List (ℕ × ℕ) :=
  let final := (List.range len).foldl
    (fun (st : Bool × ℕ × List (ℕ × ℕ)) idx =>
      if p idx then
        if st.1 then st else (true, idx, st.2.2)
      else if st.1 then (false, st.2.1, st.2.2 ++ [(st.2.1 + 1, idx)])
      else st)
    (false, 0, [])
  if final.1 then final.2.2 ++ [(final.2.1 + 1, len)] else final.2.2

/-- The fields of the `BasicBooleanMeasures` record that
`calculate_residue_wise` assigns. -/
structure BasicBooleanMeasures where
  pp : ℕ
  pp1 : ℕ
  pp2 : ℕ
  pa : ℕ
  ap : ℕ
  aa : ℕ
  deriving Repr, DecidableEq

/-- Number of positions of the slice `self.seq[site[0] - 1 : site[1]]`
equal to 3, as counted by `np.sum(self.seq[site[0] - 1: site[1]] == 3)`. -/
def matchedInSlice (seq : List ℕ) (site : Site) : ℕ :=
  ((seq.drop (site.1 - 1).toNat).take (site.2 - (site.1 - 1)).toNat).count 3

/-- Gross-mode accumulation of one annotation in
`calculate_residue_wise`: total matched symbols (`pp_[i]`) and total
unmatched symbols (`pa` for annotation 1, `ap` for annotation 2) over
the annotation's sites. -/
def grossCounts (seq : List ℕ) : List Site → ℕ × ℕ
  | [] => (0, 0)
  | site :: rest =>
    let matched := matchedInSlice seq site
    let site_length := (site.2 - site.1 + 1).toNat
    let tail := grossCounts seq rest
    (matched + tail.1, (site_length - matched) + tail.2)

/-- `BasicBooleanSequenceCalculator.calculate_residue_wise` (the measure
assignments; the detailed-file prose output does not affect the
results).  In the non-gross branch `pp` counts positions classified 3,
`pa` positions classified 1, `ap` positions classified 2, and `pp_[1]`,
`pp_[2]` copy `pp`; in the gross branch `pp_[i]` and `pa`/`ap` are the
per-annotation matched/unmatched totals and `pp` keeps its initial 0.
In both branches `aa` counts positions classified 0. -/
def calculate_residue_wise_bool (gross : Bool) (seq : List ℕ)
    (sites1 sites2 : List Site) : BasicBooleanMeasures :=
  if gross then
    let c1 := grossCounts seq sites1
    let c2 := grossCounts seq sites2
    { pp := 0, pp1 := c1.1, pp2 := c2.1, pa := c1.2, ap := c2.2
      aa := seq.count 0 }
  else
    let pp := seq.count 3
    { pp := pp, pp1 := pp, pp2 := pp, pa := seq.count 1
      ap := seq.count 2, aa := seq.count 0 }

/- ### SiteMatcher: site-wise matching in `BasicBooleanSequenceCalculator` -/

/-- Value of the command line option `predictor_nature`. -/
inductive PredictorNature where
  | neutral
  | leading
  | lagging
  deriving Repr, DecidableEq

/-- Valid values of the command line option `overlap_apply` (an
unrecognized value is a fatal configuration error rejected before the
computation starts). -/
inductive OverlapApply where
  | shortest
  | longest
  | current
  | patched
  deriving Repr, DecidableEq

/-- The command line options consulted by the site-wise computation. -/
structure MatchOptions where
  overlap_apply : OverlapApply
  overlap_symbols : ℤ
  overlap_part : ℚ
  predictor_nature : PredictorNature
  gross : Bool
  deriving Repr, DecidableEq

/-- `BasicBooleanSequenceCalculator._get_overlapped_symbols`: the number
of shared symbols between `site` (of the annotation numbered `anno_idx`)
and `site_` of the other annotation.  A non-neutral predictor nature
first excludes a candidate lying on the wrong side of the site's begin;
otherwise the overlap is
`max(min(site[1] - site_[0], site_[1] - site[0], site[1] - site[0], site_[1] - site_[0]) + 1, 0)`. -/
def get_overlapped_symbols (nature : PredictorNature) (site site_ : Site)
    (anno_idx : ℕ) : ℤ :=
  if nature ≠ PredictorNature.neutral then
    if (nature = PredictorNature.lagging) = (anno_idx = 1) then
      if site_.1 < site.1 then 0
      else max (min (site.2 - site_.1) (min (site_.2 - site.1)
        (min (site.2 - site.1) (site_.2 - site_.1))) + 1) 0
    else if site_.1 > site.1 then 0
    else max (min (site.2 - site_.1) (min (site_.2 - site.1)
      (min (site.2 - site.1) (site_.2 - site_.1))) + 1) 0
  else max (min (site.2 - site_.1) (min (site_.2 - site.1)
    (min (site.2 - site.1) (site_.2 - site_.1))) + 1) 0

/-- `BasicBooleanSequenceCalculator._get_site_length`: the effective site
length under the `overlap_apply` policy. -/
def get_site_length (apply_ : OverlapApply) (site site_ : Site) : ℤ :=
  match apply_ with
  | OverlapApply.shortest => min (site.2 - site.1) (site_.2 - site_.1) + 1
  | OverlapApply.longest => max (site.2 - site.1) (site_.2 - site_.1) + 1
  | OverlapApply.current => site.2 - site.1 + 1
  | OverlapApply.patched => site.2 - site.1 + 1

/-- `BasicBooleanSequenceCalculator._check_overlap_sufficiency`:
`overlapped_symbols >= overlap_symbols` and
`overlapped_symbols / site_length >= overlap_part` (Python true
division of the two integers). -/
def check_overlap_sufficiency (opt : MatchOptions)
    (overlapped_symbols site_length : ℤ) : Bool :=
  decide (overlapped_symbols ≥ opt.overlap_symbols) &&
    decide ((overlapped_symbols : ℚ) / (site_length : ℚ) ≥ opt.overlap_part)

/-- The inner candidate loop of `calculate_site_wise` for the
non-patched policies: scan the other annotation's sites in order, break
out as soon as `site_[0] > site[1]`, and report a match on the first
candidate passing the sufficiency check. -/
def find_match (opt : MatchOptions) (anno_idx : ℕ) (site : Site) :
    List Site → Bool
  | [] => false
  | site_ :: rest =>
    if site_.1 > site.2 then false
    else if check_overlap_sufficiency opt
        (get_overlapped_symbols opt.predictor_nature site site_ anno_idx)
        (get_site_length opt.overlap_apply site site_) then true
    else find_match opt anno_idx site rest

/-- Per-annotation outer loop of `calculate_site_wise` for the
`shortest`/`longest`/`current` policies: for each site accumulate its
unique (or gross) length into `site_len[i]` and count it as matched
(`site_m[i]`) or unmatched (`site_nm[i]`) according to `find_match`.
The `last_end` argument is the end of the previous site (0 initially),
used for the non-gross effective begin `max(site[0], last_end + 1)`. -/
def processSites (opt : MatchOptions) (anno_idx : ℕ) (last_end : ℤ) :
    List Site → List Site → ℕ × ℕ × ℤ
  | [], _ => (0, 0, 0)
  | site :: rest, cands =>
    let site_effective_begin :=
      if opt.gross then site.1 else max site.1 (last_end + 1)
    let len := site.2 - site_effective_begin + 1
    let found := find_match opt anno_idx site cands
    let tail := processSites opt anno_idx site.2 rest cands
    ((if found then 1 else 0) + tail.1,
      (if found then 0 else 1) + tail.2.1,
      len + tail.2.2)

/-- Per-annotation loop of `calculate_site_wise` for the `patched`
policy: each site is matched against the pre-computed classification
array (positions classified 3 under the site), with the sufficiency
check against the site's own length. -/
def processSitesPatched (opt : MatchOptions) (seq : List ℕ) :
    List Site → ℕ × ℕ
  | [] => (0, 0)
  | site :: rest =>
    let matched_symbols := (matchedInSlice seq site : ℤ)
    let site_length := site.2 - site.1 + 1
    let found := check_overlap_sufficiency opt matched_symbols site_length
    let tail := processSitesPatched opt seq rest
    ((if found then 1 else 0) + tail.1, (if found then 0 else 1) + tail.2)

/-- The site-wise counters of `BasicBooleanMeasures` written by
`calculate_site_wise`. -/
structure SiteWiseMeasures where
  site_m1 : ℕ
  site_nm1 : ℕ
  site_m2 : ℕ
  site_nm2 : ℕ
  site_len1 : ℤ
  site_len2 : ℤ
  deriving Repr, DecidableEq

/-- `BasicBooleanSequenceCalculator.calculate_site_wise` (the counter
updates; the detailed/site file output does not affect the counters,
which start at 0 in a fresh `BasicBooleanMeasures`).  The
`shortest`/`longest`/`current` policies run the pairwise matching loop
for each annotation against the other; the `patched` policy instead
checks each site against the classification array and leaves
`site_len` untouched. -/
def calculate_site_wise (opt : MatchOptions) (seq : List ℕ)
    (sites1 sites2 : List Site) : SiteWiseMeasures :=
  match opt.overlap_apply with
  | OverlapApply.patched =>
    let r1 := processSitesPatched opt seq sites1
    let r2 := processSitesPatched opt seq sites2
    { site_m1 := r1.1, site_nm1 := r1.2, site_m2 := r2.1, site_nm2 := r2.2
      site_len1 := 0, site_len2 := 0 }
  | _ =>
    let r1 := processSites opt 1 0 sites1 sites2
    let r2 := processSites opt 2 0 sites2 sites1
    { site_m1 := r1.1, site_nm1 := r1.2.1, site_m2 := r2.1
      site_nm2 := r2.2.1, site_len1 := r1.2.2, site_len2 := r2.2.2 }

/- ### SymbolClassifier, Enrichment variant:
   `BasicEnrichmentSequenceCalculator` -/

/-- One marking pass of
`BasicEnrichmentSequenceCalculator._count_occurrences`: every position
covered by the site has its occurrence counter incremented. -/
def markOccurrences (seq : List ℤ) (site : Site) : List ℤ :=
  (siteIndices site).foldl (fun l idx => l.set idx (l.getD idx 0 + 1)) seq

/-- The per-annotation occurrence counter array built by
`_count_occurrences` from the zero array allocated by the constructor. -/
def count_occurrences (len : ℕ) (sites : List Site) : List ℤ :=
  sites.foldl markOccurrences (List.replicate len 0)

/-- The attributes of a `BasicEnrichmentSequenceCalculator` instance
used by `calculate_residue_wise`.  The Python object never has a
`seq_length` attribute (no constructor in the class hierarchy assigns
`self.seq_length`; the sequence length lives in
`self.current_seq.length`), which is embedded as an `Option` that the
constructor leaves at `none`; reading it then raises `AttributeError`. -/
structure EnrichmentCalculator where
  n : ℤ
  seq1 : List ℤ
  seq2 : List ℤ
  seq_length : Option ℤ
  deriving Repr, DecidableEq

/-- `BasicEnrichmentSequenceCalculator.__init__` (together with
`BasicSequenceCalculator.__init__`): stores the enrichment threshold
`n`, builds the two occurrence counter arrays, and never assigns
`seq_length`. -/
def enrichment_calculator_init (enrichment_count : ℤ) (len : ℕ)
    (sites1 sites2 : List Site) : EnrichmentCalculator :=
  { n := enrichment_count
    seq1 := count_occurrences len sites1
    seq2 := count_occurrences len sites2
    seq_length := none }

/-- The fields of `BasicEnrichmentMeasures` assigned by
`calculate_residue_wise`. -/
structure BasicEnrichmentMeasures where
  e1 : ℕ
  e2 : ℕ
  re1 : ℕ
  re2 : ℕ
  ee : ℕ
  ne : ℕ
  nre : ℤ
  deriving Repr, DecidableEq

/-- `BasicEnrichmentSequenceCalculator._write_measure_info_to_detailed_file`:
unconditionally calls `write` on the `file_handler` argument; with a
`None` handler Python raises `AttributeError`, embedded as the error
case.  A successful write appends the line to the handler's contents. -/
def write_measure_info_enrichment (file_handler : Option (List String))
    (line : String) : Except String (Option (List String)) :=
  match file_handler with
  | none => Except.error "AttributeError: NoneType object has no attribute write"
  | some lines => Except.ok (some (lines ++ [line]))

/-- `BasicEnrichmentSequenceCalculator.calculate_residue_wise`: computes
`e[i]`, `re[i]` for both annotations, then `ee` and `ne`, writing a
detailed line after each of `e[1]`, `e[2]`, `ee` and `ne` (each write
fails on a `None` handler), and finally computes
`nre = self.seq_length - re[1] - re[2]`, which fails with
`AttributeError` because the attribute was never set. -/
def calculate_residue_wise_enrichment (c : EnrichmentCalculator)
    (file_handler : Option (List String)) :
    Except String BasicEnrichmentMeasures :=
  let e1 := c.seq1.countP (fun x => c.n ≤ x)
  match write_measure_info_enrichment file_handler "e1" with
  | Except.error e => Except.error e
  | Except.ok fh1 =>
    let re1 := (c.seq1.zip c.seq2).countP (fun p => c.n ≤ p.1 - p.2)
    let e2 := c.seq2.countP (fun x => c.n ≤ x)
    match write_measure_info_enrichment fh1 "e2" with
    | Except.error e => Except.error e
    | Except.ok fh2 =>
      let re2 := (c.seq2.zip c.seq1).countP (fun p => c.n ≤ p.1 - p.2)
      let ee := (c.seq1.zip c.seq2).countP (fun p => c.n ≤ p.1 && c.n ≤ p.2)
      match write_measure_info_enrichment fh2 "ee" with
      | Except.error e => Except.error e
      | Except.ok fh3 =>
        let ne_ := (c.seq1.zip c.seq2).countP
          (fun p => p.1 < c.n && p.2 < c.n)
        match write_measure_info_enrichment fh3 "ne" with
        | Except.error e => Except.error e
        | Except.ok _ =>
          match c.seq_length with
          | none =>
            Except.error "AttributeError: no attribute seq_length"
          | some len =>
            Except.ok { e1 := e1, e2 := e2, re1 := re1, re2 := re2
                        ee := ee, ne := ne_
                        nre := len - (re1 : ℤ) - (re2 : ℤ) }

/- ### PerformanceCalculator: `_calc_mcc` -/

/-- `PerformanceCalculator._calc_mcc` on the group-level basic measures
(floats embedded as reals, the NaN sentinel as `none`): the numerator is
`pp * aa + ap * pa`, the denominator `sqrt` of the product of the four
marginals, and the result is NaN unless that product is positive.  The
function is total: a zero denominator yields the sentinel, never an
exception. -/
noncomputable def calc_mcc (pp pa ap aa : ℝ) : Option ℝ :=
  if (pp + pa) * (pp + ap) * (aa + ap) * (aa + pa) > 0 then
    some ((pp * aa + ap * pa) /
      Real.sqrt ((pp + pa) * (pp + ap) * (aa + ap) * (aa + pa)))
  else none

/-- The `mcc` formula as the specification words it:
`(pp * aa - ap * pa) / sqrt((pp+pa)(pp+ap)(aa+ap)(aa+pa))`, with the
same zero-denominator sentinel.  Stated for comparison with
`calc_mcc`, the translation of the code. -/
noncomputable def calc_mcc_spec (pp pa ap aa : ℝ) : Option ℝ :=
  if (pp + pa) * (pp + ap) * (aa + ap) * (aa + pa) > 0 then
    some ((pp * aa - ap * pa) /
      Real.sqrt ((pp + pa) * (pp + ap) * (aa + ap) * (aa + pa)))
  else none

/- ### DatabaseAggregator: `_produce_final_string` -/

/-- Modelled from the spec: the accumulation of per-group
`PerformanceMeasures` into the database totals is performed by the
`PerformanceMeasures.__iadd__` and `get_count` machinery of
`slalom_structures`, which is not part of this repository's source
file.  Per the spec, for each measure the database keeps a simple sum
of the per-group values over the groups where the measure was defined.
A per-group value is `none` when the measure was undefined (NaN) in
that group. -/
def db_sum (vals : List (Option ℚ)) : ℚ :=
  (vals.filterMap id).sum

/-- Modelled from the spec: the per-measure accumulation count
(`get_count` of `slalom_structures`): the number of groups where the
measure was defined. -/
def db_count (vals : List (Option ℚ)) : ℕ :=
  (vals.filterMap id).length

/-- Modelled from the spec: the accumulated database value
(`get_value`): NaN while no defined per-group value has been added,
otherwise the running sum of the defined values. -/
def db_value (vals : List (Option ℚ)) : Option ℚ :=
  if db_count vals = 0 then none else some (db_sum vals)

/-- The per-measure branch of `DataProcessor._produce_final_string`:
`value` is the accumulated database value of the measure (`none` = NaN),
`count` its accumulation count, `na_zeros` the aggregation mode and
`groups_n` the total number of groups (0 when there is no grouping).
In skip-undefined mode (`na_zeros` false) a defined value is divided by
the accumulation count when grouped, and a NaN value is left as NaN; in
na-as-zero mode a NaN value becomes 0 and a defined value is divided by
the total number of groups when grouped. -/
def produce_final_value (value : Option ℚ) (count : ℕ) (na_zeros : Bool)
    (groups_n : ℕ) : Option ℚ :=
  if !na_zeros then
    match value with
    | none => none
    | some v => if groups_n ≠ 0 then some (v / (count : ℚ)) else some v
  else
    match value with
    | none => some 0
    | some v => if groups_n ≠ 0 then some (v / (groups_n : ℚ)) else some v

/- ### Helper lemmas -/

/-- A fold of position-wise updates that keep the list length keeps the
length of the classification array. -/
theorem foldl_set_length (f : List ℕ → ℕ → List ℕ)
    (hf : ∀ l i, (f l i).length = l.length) :
    ∀ (idxs : List ℕ) (l : List ℕ), (idxs.foldl f l).length = l.length := by
  intro idxs
  induction idxs with
  | nil => intro l; rfl
  | cons i rest ih => intro l; rw [List.foldl_cons, ih, hf]

theorem markSite1_length (seq : List ℕ) (site : Site) :
    (markSite1 seq site).length = seq.length := by
  unfold markSite1
  exact foldl_set_length _ (fun l i => List.length_set l i 1) _ seq

theorem markSite2_length (seq : List ℕ) (site : Site) :
    (markSite2 seq site).length = seq.length := by
  unfold markSite2
  refine foldl_set_length _ (fun l i => ?_) _ seq
  show (if l.getD i 0 = 0 then l.set i 2
    else if l.getD i 0 = 1 then l.set i 3 else l).length = l.length
  split
  · exact l.length_set i 2
  · split
    · exact l.length_set i 3
    · rfl

theorem classify_symbols_length (len : ℕ) (sites1 sites2 : List Site) :
    (classify_symbols len sites1 sites2).length = len := by
  unfold classify_symbols
  have h1 : ∀ (ss : List Site) (l : List ℕ),
      (ss.foldl markSite1 l).length = l.length := by
    intro ss
    induction ss with
    | nil => intro l; rfl
    | cons s rest ih => intro l; rw [List.foldl_cons, ih, markSite1_length]
  have h2 : ∀ (ss : List Site) (l : List ℕ),
      (ss.foldl markSite2 l).length = l.length := by
    intro ss
    induction ss with
    | nil => intro l; rfl
    | cons s rest ih => intro l; rw [List.foldl_cons, ih, markSite2_length]
  rw [h2, h1, List.length_replicate]

/-- Membership in a list after `List.set` comes from the old list or is
the written value. -/
theorem mem_of_fold_set (v : ℕ) (hv : v < 4) :
    ∀ (idxs : List ℕ) (l : List ℕ), (∀ x ∈ l, x < 4) →
      ∀ x ∈ idxs.foldl (fun l i => l.set i v) l, x < 4 := by
  intro idxs
  induction idxs with
  | nil => intro l hl; exact hl
  | cons i rest ih =>
    intro l hl
    rw [List.foldl_cons]
    refine ih _ (fun x hx => ?_)
    rcases List.mem_or_eq_of_mem_set hx with h | h
    · exact hl x h
    · omega

theorem markSite1_bounded (seq : List ℕ) (site : Site)
    (h : ∀ x ∈ seq, x < 4) : ∀ x ∈ markSite1 seq site, x < 4 :=
  mem_of_fold_set 1 (by omega) _ seq h

theorem markSite2_bounded (seq : List ℕ) (site : Site)
    (h : ∀ x ∈ seq, x < 4) : ∀ x ∈ markSite2 seq site, x < 4 := by
  unfold markSite2
  revert seq
  induction siteIndices site with
  | nil => intro seq h; exact h
  | cons i rest ih =>
    intro seq h
    rw [List.foldl_cons]
    refine ih _ (fun x hx => ?_)
    have hx' : x ∈ (if seq.getD i 0 = 0 then seq.set i 2
        else if seq.getD i 0 = 1 then seq.set i 3 else seq) := hx
    split at hx'
    · rcases List.mem_or_eq_of_mem_set hx' with h' | h'
      · exact h x h'
      · omega
    · split at hx'
      · rcases List.mem_or_eq_of_mem_set hx' with h' | h'
        · exact h x h'
        · omega
      · exact h x hx'

theorem classify_symbols_bounded (len : ℕ) (sites1 sites2 : List Site) :
    ∀ x ∈ classify_symbols len sites1 sites2, x < 4 := by
  unfold classify_symbols
  have h1 : ∀ (ss : List Site) (l : List ℕ), (∀ x ∈ l, x < 4) →
      ∀ x ∈ ss.foldl markSite1 l, x < 4 := by
    intro ss
    induction ss with
    | nil => intro l hl; exact hl
    | cons s rest ih =>
      intro l hl
      rw [List.foldl_cons]
      exact ih _ (markSite1_bounded _ _ hl)
  have h2 : ∀ (ss : List Site) (l : List ℕ), (∀ x ∈ l, x < 4) →
      ∀ x ∈ ss.foldl markSite2 l, x < 4 := by
    intro ss
    induction ss with
    | nil => intro l hl; exact hl
    | cons s rest ih =>
      intro l hl
      rw [List.foldl_cons]
      exact ih _ (markSite2_bounded _ _ hl)
  refine h2 _ _ (h1 _ _ (fun x hx => ?_))
  rw [List.eq_of_mem_replicate hx]
  omega

/-- Counting the four possible classification values partitions a
bounded list. -/
theorem count_partition (l : List ℕ) (h : ∀ x ∈ l, x < 4) :
    l.count 0 + l.count 1 + l.count 2 + l.count 3 = l.length := by
  induction l with
  | nil => rfl
  | cons a t ih =>
    have ha : a < 4 := h a (List.mem_cons_self a t)
    have ht := ih (fun x hx => h x (List.mem_cons_of_mem a hx))
    simp only [List.count_cons, List.length_cons]
    interval_cases a <;> simp <;> omega

/-- Each site processed by the pairwise site-wise loop is counted
exactly once, as matched or as unmatched. -/
theorem processSites_counts (opt : MatchOptions) (anno_idx : ℕ) :
    ∀ (sites cands : List Site) (last_end : ℤ),
      (processSites opt anno_idx last_end sites cands).1 +
        (processSites opt anno_idx last_end sites cands).2.1 =
        sites.length := by
  intro sites
  induction sites with
  | nil => intro cands last_end; rfl
  | cons site rest ih =>
    intro cands last_end
    simp only [processSites, List.length_cons]
    have := ih cands site.2
    split <;> omega

/-- Each site processed by the patched site-wise loop is counted exactly
once, as matched or as unmatched. -/
theorem processSitesPatched_counts (opt : MatchOptions) (seq : List ℕ) :
    ∀ sites : List Site,
      (processSitesPatched opt seq sites).1 +
        (processSitesPatched opt seq sites).2 = sites.length := by
  intro sites
  induction sites with
  | nil => rfl
  | cons site rest ih =>
    simp only [processSitesPatched, List.length_cons]
    split <;> omega

/- ### Claims -/

/-- C2: the `merge` overlap-resolution policy is claimed to output a
sorted, non-overlapping list covering exactly the union of the input's
covered positions, coalescing each maximal overlap run into
`[run_min_begin, run_max_end]`.  The code fails this on the sorted
nested input `[[1, 10], [2, 3]]`: because the loop overwrites
`last_end` with every site's end without taking a maximum, the run
collapses to `[1, 3]`; position 4 is covered by the input but not by
the output, and the claimed output `[[1, 10]]` is not produced. -/
theorem c2_merge_drops_covered_positions :
    resolve_merge [((1 : ℤ), (10 : ℤ)), (2, 3)] = [(1, 3)] ∧
    covers [((1 : ℤ), (10 : ℤ)), (2, 3)] 4 = true ∧
    covers (resolve_merge [((1 : ℤ), (10 : ℤ)), (2, 3)]) 4 = false := by
  refine ⟨rfl, rfl, rfl⟩

/-- C3: the `first` overlap-resolution policy is claimed to keep a site
exactly when its begin exceeds the end of the previously kept site.  On
the sorted input `[[1, 10], [2, 3], [4, 5]]` the code keeps
`[1, 10]` and `[4, 5]` (which overlap), because it compares each begin
with the end of the immediately preceding site, kept or not; the
claimed policy (embedded as `resolve_first_spec`) keeps only
`[1, 10]`. -/
theorem c3_first_keeps_overlapping_site :
    resolve_first [((1 : ℤ), (10 : ℤ)), (2, 3), (4, 5)] =
      [(1, 10), (4, 5)] ∧
    resolve_first_spec [((1 : ℤ), (10 : ℤ)), (2, 3), (4, 5)] =
      [(1, 10)] := by
  refine ⟨rfl, rfl⟩

/-- C6: for a sequence of length 10 with annotation-1 site `[1, 5]` and
annotation-2 site `[3, 8]`, the Boolean classification yields
`pp = 3`, `pa = 2`, `ap = 3`, `aa = 2`, and the emitted maximal
predicate runs are union `[1, 8]`, intersection `[3, 5]`,
complement-of-annotation-1 (only-2) `[6, 8]` and
complement-of-annotation-2 (only-1) `[1, 2]`. -/
theorem c6_classification_example :
    (calculate_residue_wise_bool false
        (classify_symbols 10 [(1, 5)] [(3, 8)]) [(1, 5)] [(3, 8)]).pp = 3 ∧
    (calculate_residue_wise_bool false
        (classify_symbols 10 [(1, 5)] [(3, 8)]) [(1, 5)] [(3, 8)]).pa = 2 ∧
    (calculate_residue_wise_bool false
        (classify_symbols 10 [(1, 5)] [(3, 8)]) [(1, 5)] [(3, 8)]).ap = 3 ∧
    (calculate_residue_wise_bool false
        (classify_symbols 10 [(1, 5)] [(3, 8)]) [(1, 5)] [(3, 8)]).aa = 2 ∧
    write_runs (in_union (classify_symbols 10 [(1, 5)] [(3, 8)])) 10 =
      [(1, 8)] ∧
    write_runs (in_intersection (classify_symbols 10 [(1, 5)] [(3, 8)])) 10 =
      [(3, 5)] ∧
    write_runs (in_complement1 (classify_symbols 10 [(1, 5)] [(3, 8)])) 10 =
      [(6, 8)] ∧
    write_runs (in_complement2 (classify_symbols 10 [(1, 5)] [(3, 8)])) 10 =
      [(1, 2)] := by
  refine ⟨by decide, by decide, by decide, by decide, by decide, by decide,
    by decide, by decide⟩

/-- C7: with neutral predictor nature the overlap extent computed by
`_get_overlapped_symbols` equals
`max(0, min(site.end, cand.end) - max(site.begin, cand.begin) + 1)`
for every pair of sites; and with `overlap_apply = shortest`,
`overlap_symbols = 1`, `overlap_part = 0.5`, site `[3, 5]` against
candidate `[4, 10]` has overlap 2 and effective length 3, and the
sufficiency test accepts the match. -/
theorem c7_overlap_extent_formula :
    (∀ (site site_ : Site) (anno_idx : ℕ),
      get_overlapped_symbols PredictorNature.neutral site site_ anno_idx =
        max 0 (min site.2 site_.2 - max site.1 site_.1 + 1)) ∧
    get_overlapped_symbols PredictorNature.neutral (3, 5) (4, 10) 1 = 2 ∧
    get_site_length OverlapApply.shortest (3, 5) (4, 10) = 3 ∧
    check_overlap_sufficiency
      { overlap_apply := OverlapApply.shortest, overlap_symbols := 1
        overlap_part := 1 / 2, predictor_nature := PredictorNature.neutral
        gross := false } 2 3 = true := by
  refine ⟨fun site site_ anno_idx => ?_, by decide, by decide, ?_⟩
  · simp only [get_overlapped_symbols, ne_eq, not_true_eq_false, if_false]
    omega
  · simp only [check_overlap_sufficiency, Bool.and_eq_true, decide_eq_true_eq]
    norm_num

/-- C9: in Boolean (non-gross) mode, for every sequence of length `len`
with valid site lists (1-based begins and ends inside the sequence),
the four residue-wise counts of `calculate_residue_wise` sum to the
sequence length. -/
theorem c9_boolean_counts_sum_to_length (len : ℕ) (sites1 sites2 : List Site)
    (h1 : ∀ s ∈ sites1, 1 ≤ s.1 ∧ s.1 ≤ s.2 ∧ s.2 ≤ (len : ℤ))
    (h2 : ∀ s ∈ sites2, 1 ≤ s.1 ∧ s.1 ≤ s.2 ∧ s.2 ≤ (len : ℤ)) :
    (calculate_residue_wise_bool false
        (classify_symbols len sites1 sites2) sites1 sites2).pp +
      (calculate_residue_wise_bool false
        (classify_symbols len sites1 sites2) sites1 sites2).pa +
      (calculate_residue_wise_bool false
        (classify_symbols len sites1 sites2) sites1 sites2).ap +
      (calculate_residue_wise_bool false
        (classify_symbols len sites1 sites2) sites1 sites2).aa = len := by
  have hb := classify_symbols_bounded len sites1 sites2
  have hl := classify_symbols_length len sites1 sites2
  have hc := count_partition _ hb
  rw [hl] at hc
  simp only [calculate_residue_wise_bool, Bool.false_eq_true, if_false]
  omega

/-- Witness for C9 at the concrete classification example: length 10,
annotation-1 site `[1, 5]`, annotation-2 site `[3, 8]`. -/
theorem c9_boolean_counts_sum_to_length_witness :
    (calculate_residue_wise_bool false
        (classify_symbols 10 [(1, 5)] [(3, 8)]) [(1, 5)] [(3, 8)]).pp +
      (calculate_residue_wise_bool false
        (classify_symbols 10 [(1, 5)] [(3, 8)]) [(1, 5)] [(3, 8)]).pa +
      (calculate_residue_wise_bool false
        (classify_symbols 10 [(1, 5)] [(3, 8)]) [(1, 5)] [(3, 8)]).ap +
      (calculate_residue_wise_bool false
        (classify_symbols 10 [(1, 5)] [(3, 8)]) [(1, 5)] [(3, 8)]).aa = 10 :=
  c9_boolean_counts_sum_to_length 10 [(1, 5)] [(3, 8)]
    (by decide) (by decide)

/-- C10: under every `overlap_apply` policy, after `calculate_site_wise`
completes each annotation's matched and unmatched site counters sum to
the number of (post-overlap-resolution) sites of that annotation. -/
theorem c10_site_counters_partition (opt : MatchOptions) (seq : List ℕ)
    (sites1 sites2 : List Site) :
    (calculate_site_wise opt seq sites1 sites2).site_m1 +
        (calculate_site_wise opt seq sites1 sites2).site_nm1 =
        sites1.length ∧
      (calculate_site_wise opt seq sites1 sites2).site_m2 +
        (calculate_site_wise opt seq sites1 sites2).site_nm2 =
        sites2.length := by
  rcases opt with ⟨oa, os, op, pn, g⟩
  cases oa <;>
    simp only [calculate_site_wise] <;>
    exact ⟨by first
        | exact processSites_counts _ _ _ _ _
        | exact processSitesPatched_counts _ _ _,
      by first
        | exact processSites_counts _ _ _ _ _
        | exact processSitesPatched_counts _ _ _⟩

/-- Treating an undefined per-group value as zero before summing gives
the sum of the defined values. -/
theorem db_sum_na_zero (vals : List (Option ℚ)) :
    (vals.map (fun o => o.getD 0)).sum = db_sum vals := by
  induction vals with
  | nil => rfl
  | cons v rest ih =>
    cases v with
    | none => simpa [db_sum, List.filterMap_cons] using ih
    | some q =>
      simp only [db_sum, List.filterMap_cons, List.map_cons, List.sum_cons,
        Option.getD_some, id] at ih ⊢
      rw [ih]

/-- C1: the claim states that `_calc_mcc` computes
`(pp * aa - ap * pa) / sqrt((pp+pa)(pp+ap)(aa+ap)(aa+pa))`.  At the
reachable group measures `pp = pa = ap = aa = 1/4` (one sequence of
length 4 with one position in both annotations, one in each alone and
one in neither) the code, whose numerator is `pp * aa + ap * pa`,
yields `1/2`, while the claimed formula (embedded as `calc_mcc_spec`)
yields `0`. -/
theorem c1_mcc_numerator_is_a_sum :
    calc_mcc (1 / 4) (1 / 4) (1 / 4) (1 / 4) = some (1 / 2) ∧
    calc_mcc_spec (1 / 4) (1 / 4) (1 / 4) (1 / 4) = some 0 := by
  have hprod : ((1 / 4 + 1 / 4) * (1 / 4 + 1 / 4) * (1 / 4 + 1 / 4) *
      (1 / 4 + 1 / 4) : ℝ) = (1 / 4) ^ 2 := by norm_num
  have hs : Real.sqrt ((1 / 4 + 1 / 4) * (1 / 4 + 1 / 4) * (1 / 4 + 1 / 4) *
      (1 / 4 + 1 / 4)) = 1 / 4 := by
    rw [hprod]
    exact Real.sqrt_sq (by norm_num)
  constructor
  · rw [calc_mcc, if_pos (by norm_num), hs]
    norm_num
  · rw [calc_mcc_spec, if_pos (by norm_num), hs]
    norm_num

/-- C8: for nonnegative group-level basic measures, `_calc_mcc` (a total
function in this embedding: it returns the NaN sentinel rather than
raising) is undefined exactly when the marginal product
`(pp+pa)(pp+ap)(aa+ap)(aa+pa)` is zero. -/
theorem c8_mcc_nan_iff_zero_denominator (pp pa ap aa : ℝ)
    (hpp : 0 ≤ pp) (hpa : 0 ≤ pa) (hap : 0 ≤ ap) (haa : 0 ≤ aa) :
    (calc_mcc pp pa ap aa = none ↔
      (pp + pa) * (pp + ap) * (aa + ap) * (aa + pa) = 0) := by
  have h0 : 0 ≤ (pp + pa) * (pp + ap) * (aa + ap) * (aa + pa) := by
    positivity
  rw [calc_mcc]
  split_ifs with h
  · constructor
    · intro hc
      exact hc.elim
    · intro hz
      rw [hz] at h
      exact absurd h (lt_irrefl 0)
  · constructor
    · intro _
      exact le_antisymm (not_lt.mp h) h0
    · intro _
      rfl

/-- Witness for C8: with all four measures zero the marginal product is
zero and the code yields the NaN sentinel. -/
theorem c8_mcc_nan_iff_zero_denominator_witness :
    calc_mcc 0 0 0 0 = none :=
  (c8_mcc_nan_iff_zero_denominator 0 0 0 0 le_rfl le_rfl le_rfl le_rfl).mpr
    (by norm_num)

/-- C4: in enrichment mode, `calculate_residue_wise` on a freshly
constructed `BasicEnrichmentSequenceCalculator` always fails instead of
returning a `BasicEnrichmentMeasures` record: with a `None`
detailed-file handler the unconditional `write` call raises, and with a
real handler the final read of the never-assigned `self.seq_length`
attribute raises. -/
theorem c4_enrichment_residue_wise_always_fails (enrichment_count : ℤ)
    (len : ℕ) (sites1 sites2 : List Site)
    (file_handler : Option (List String)) (h : 0 < enrichment_count) :
    ∃ e, calculate_residue_wise_enrichment
        (enrichment_calculator_init enrichment_count len sites1 sites2)
        file_handler = Except.error e := by
  cases file_handler with
  | none =>
    exact ⟨"AttributeError: NoneType object has no attribute write", rfl⟩
  | some lines =>
    exact ⟨"AttributeError: no attribute seq_length", rfl⟩

/-- Witness for C4: enrichment threshold 1, a length-1 sequence with no
sites, and no detailed file handler. -/
theorem c4_enrichment_residue_wise_always_fails_witness :
    ∃ e, calculate_residue_wise_enrichment
        (enrichment_calculator_init 1 1 [] []) none = Except.error e :=
  c4_enrichment_residue_wise_always_fails 1 1 [] [] none (by norm_num)

/-- C5: database aggregation over `vals.length` groups of the per-group
values of one measure (with at least one group and the measure defined
in at least one group): in skip-undefined mode the final value is the
sum of the defined per-group values divided by the number of groups
where the measure was defined, and in na-as-zero mode it is the sum
with undefined values replaced by zero divided by the total number of
groups. -/
theorem c5_database_aggregation_modes (vals : List (Option ℚ))
    (hne : vals ≠ []) (hdef : db_count vals ≠ 0) :
    produce_final_value (db_value vals) (db_count vals) false
        vals.length = some (db_sum vals / (db_count vals : ℚ)) ∧
    produce_final_value (db_value vals) (db_count vals) true
        vals.length = some
        ((vals.map (fun o => o.getD 0)).sum / (vals.length : ℚ)) := by
  have hlen : vals.length ≠ 0 := by
    intro hl
    exact hne (List.length_eq_zero.mp hl)
  constructor
  · simp only [produce_final_value, db_value, if_neg hdef]
    simp [hlen]
  · simp only [produce_final_value, db_value, if_neg hdef]
    simp [hlen, db_sum_na_zero]

/-- Witness for C5: two groups, the measure undefined in the first and
`4/5` in the second; skip-undefined yields `4/5`, na-as-zero `2/5`. -/
theorem c5_database_aggregation_modes_witness :
    produce_final_value (db_value [none, some (4 / 5 : ℚ)])
        (db_count [none, some (4 / 5 : ℚ)]) false
        ([none, some (4 / 5 : ℚ)] : List (Option ℚ)).length =
      some (4 / 5) ∧
    produce_final_value (db_value [none, some (4 / 5 : ℚ)])
        (db_count [none, some (4 / 5 : ℚ)]) true
        ([none, some (4 / 5 : ℚ)] : List (Option ℚ)).length =
      some (2 / 5) := by
  have h := c5_database_aggregation_modes [none, some (4 / 5 : ℚ)]
    (by simp) (by decide)
  refine ⟨h.1.trans ?_, h.2.trans ?_⟩
  · norm_num [db_sum, db_count, List.filterMap_cons]
  · norm_num
